import Mathlib

/-!
Verification of the qrpc server core: a shallow embedding, in Lean 4, of the
Go sources `server.go` and the serveconn file, together with theorems
checking the natural-language specification against that embedding.

Conventions of the embedding:
* Go machine integers become `Nat`; where overflow matters the arithmetic is
  taken modulo `2 ^ width` explicitly (e.g. the `uint64` push counter).
* Go `nil` / zero values become `Option.none` (a `nil` handler, an unset id).
* Stateful code becomes explicit state passing; each Go function is a Lean
  function from its input state to its output state plus results.
* A Go `panic` becomes an explicit `GoResult.panicked` value.
* Side effects (frames written, handler invocations, gate signals, metric
  observations) are reified as values or event lists so theorems can speak
  about them.
-/

namespace Qrpc

/-! ### Packet flags

Modelled from the spec: the flag bit values (`0x1 Stream`, `0x2 StreamEnd`,
`0x4 StreamRst`, `0x8 NonBlock`, `0x10 Push`) and the `IsRst` / `IsPush` /
`IsNonBlock` bit-test helpers live in a frame file that is not under `src/`;
they are modelled from the wire-format section of the spec, which defines
flags as a bitset with exactly these bit assignments. -/

def StreamFlag : Nat := 0x1

def StreamEndFlag : Nat := 0x2

def StreamRstFlag : Nat := 0x4

def NonBlockFlag : Nat := 0x8

def PushFlag : Nat := 0x10

/-- Modelled from the spec: bit test for the `StreamRstFlag` bit. -/
def flagIsRst (flags : Nat) : Bool := flags &&& StreamRstFlag != 0

/-- Modelled from the spec: bit test for the `PushFlag` bit. -/
def flagIsPush (flags : Nat) : Bool := flags &&& PushFlag != 0

/-- Modelled from the spec: bit test for the `NonBlockFlag` bit. -/
def flagIsNonBlock (flags : Nat) : Bool := flags &&& NonBlockFlag != 0

/-- Modelled from the spec: bit test for the `StreamEndFlag` bit. -/
def flagIsStreamEnd (flags : Nat) : Bool := flags &&& StreamEndFlag != 0

/-! ### Frames -/

/-- A parsed request frame: `requestID: u64`, `cmd: u32`, `flags: u8`,
`payload: bytes` (payload bytes as a list of `Nat`). -/
structure RequestFrame where
  RequestID : Nat
  Cmd : Nat
  Flags : Nat
  Payload : List Nat
deriving DecidableEq

/-- A frame handed to the writer loop (the `defaultFrameWriter` buffer built
by `StartWrite` / `WriteBytes`): the header fields plus payload bytes. -/
structure OutFrame where
  requestID : Nat
  cmd : Nat
  flags : Nat
  payload : List Nat
deriving DecidableEq

/-! ### Streams and the per-connection stream table

Modelled from the spec: `Stream` and `connstreams` live in a stream file
that is not under `src/`; only their call sites (`writeFrames`,
`handleRequestPanic`, `readFrames`) are.  The model follows the spec's data
model section: attributes `inClosed`, `outClosed`, `rstSent`;
`IsSelfClosed a = outClosed or rstSent`; `AddOutFrame` returns `false` for a
repeated `Rst` (first wins) and for a normal frame on an `outClosed` stream;
`StreamEndFlag` marks `outClosed` after accepting the frame; `Rst`
terminates both halves; when both `Rst` and `End` are set, `Rst` wins. -/

structure Stream where
  inClosed : Bool
  outClosed : Bool
  rstSent : Bool
deriving DecidableEq

/-- Modelled from the spec: `IsSelfClosed()` holds iff `outClosed || rstSent`. -/
def Stream.IsSelfClosed (s : Stream) : Bool := s.outClosed || s.rstSent

/-- Modelled from the spec: `AddOutFrame` validates an outbound frame against
the stream state, returning whether the frame may be sent together with the
updated stream. -/
def Stream.AddOutFrame (s : Stream) (flags : Nat) : Bool × Stream :=
  if flagIsRst flags then
    if s.rstSent then (false, s)
    else (true, { s with inClosed := true, outClosed := true, rstSent := true })
  else if s.outClosed then (false, s)
  else if flagIsStreamEnd flags then (true, { s with outClosed := true })
  else (true, s)

/-- Modelled from the spec: the per-connection stream table, a map
`requestID → Stream`, represented as an association list. -/
abbrev connstreams := List (Nat × Stream)

/-- Modelled from the spec: read-only lookup of a stream by request id. -/
def connstreams.GetStream (cs : connstreams) (requestID : Nat) : Option Stream :=
  match (cs : List (Nat × Stream)).find? (fun kv => kv.1 == requestID) with
  | some kv => some kv.2
  | none => none

/-- Modelled from the spec: store an updated stream back under its id. -/
def connstreams.setStream (cs : connstreams) (requestID : Nat) (s : Stream) : connstreams :=
  (cs : List (Nat × Stream)).map (fun kv => if kv.1 == requestID then (kv.1, s) else kv)

/-- Modelled from the spec: atomic create-or-get; the first caller creates a
fresh open stream for the id. -/
def connstreams.CreateOrGetStream (cs : connstreams) (requestID : Nat) :
    Stream × connstreams :=
  match connstreams.GetStream cs requestID with
  | some s => (s, cs)
  | none => (⟨false, false, false⟩, (requestID, ⟨false, false, false⟩) :: cs)

/-! ### ServeMux (`server.go` lines 36-80) -/

/-- Go `panic` made explicit: a computation either returns normally or
panics. -/
inductive GoResult (α : Type) where
  | ok (a : α)
  | panicked
deriving DecidableEq

def GoResult.isPanicked {α : Type} : GoResult α → Bool
  | .ok _ => false
  | .panicked => true

/-- `ServeMux`: the `cmd → handler` map.  Handlers are identified by opaque
tokens (`Nat`); the Go map (possibly `nil`, which behaves as empty for
lookups) is an association list. -/
structure ServeMux where
  m : List (Nat × Nat)
deriving DecidableEq

/-- Go map read `mux.m[cmd]` (a `nil` map reads as empty). -/
def ServeMux.lookup (mux : ServeMux) (cmd : Nat) : Option Nat :=
  match mux.m.find? (fun kv => kv.1 == cmd) with
  | some kv => some kv.2
  | none => none

/-- `ServeMux.Handle` (`server.go` 52-67): panics on a `nil` handler and on a
duplicate registration, otherwise installs the handler.  A `nil` Go handler
is `Option.none`. -/
def ServeMux.Handle (mux : ServeMux) (cmd : Nat) (handler : Option Nat) :
    GoResult ServeMux :=
  match handler with
  | none => .panicked
  | some h =>
    match mux.lookup cmd with
    | some _ => .panicked
    | none => .ok ⟨(cmd, h) :: mux.m⟩

/-- State of the mux's `sync.RWMutex`, counted read holds. -/
structure RWLockState where
  readers : Nat
deriving DecidableEq

def RWLockState.RLock (s : RWLockState) : RWLockState := ⟨s.readers + 1⟩

def RWLockState.RUnlock (s : RWLockState) : RWLockState := ⟨s.readers - 1⟩

/-- Outcome of one `ServeQRPC` dispatch: the lock state at return, the
handler invoked (if any), and the frames the dispatch itself wrote. -/
structure ServeQRPCResult where
  lock : RWLockState
  invokedHandler : Option Nat
  framesWritten : List OutFrame
deriving DecidableEq

/-- `ServeMux.ServeQRPC` (`server.go` 71-80): take the read lock, look up the
handler for `r.Cmd`; an unknown cmd returns at once (note: without
`RUnlock`), a known cmd releases the read lock and invokes the handler.  The
dispatch itself writes no frame on either path. -/
def ServeMux.ServeQRPC (mux : ServeMux) (lock : RWLockState) (r : RequestFrame) :
    ServeQRPCResult :=
  let lock1 := lock.RLock
  match mux.lookup r.Cmd with
  | none => ⟨lock1, none, []⟩
  | some h => ⟨lock1.RUnlock, some h, []⟩

/-! ### The per-connection dispatch loop (serveconn file, `serve` 122-145)

The dispatcher's handling of one received frame, and its composition with the
reader task's gate protocol (`readFrames` 226-255), reified as event traces.
A `WriterKind` distinguishes the connection writer `sc.writer` (created once
in `serve`, used for inline blocking handlers) from a fresh handle returned
by `sc.GetWriter()` (a new `newFrameWriter` per call). -/

inductive WriterKind where
  | connWriter
  | freshWriter
deriving DecidableEq

inductive ConnEvent where
  /-- The reader task parsed a frame off the wire. -/
  | frameRead (requestID : Nat)
  /-- The dispatcher invoked the handler inline and the call started. -/
  | handlerStart (w : WriterKind) (requestID : Nat)
  /-- The inline handler invocation returned. -/
  | handlerReturn (requestID : Nat)
  /-- `res.readMore()` was called: the reader's gate was signalled. -/
  | gateSignal (requestID : Nat)
  /-- A handler task was spawned (`GoFunc`); it runs concurrently. -/
  | taskSpawn (w : WriterKind) (requestID : Nat)
deriving DecidableEq

/-- The dispatcher's actions for one `readFrameResult`, in program order
(`serve` 128-140): `NonBlockFlag` clear runs the handler inline with the
connection writer and only then signals the gate; `NonBlockFlag` set signals
the gate first and then spawns a handler task with a fresh writer. -/
def dispatchFrame (f : RequestFrame) : List ConnEvent :=
  if flagIsNonBlock f.Flags then
    [.gateSignal f.RequestID, .taskSpawn .freshWriter f.RequestID]
  else
    [.handlerStart .connWriter f.RequestID, .handlerReturn f.RequestID,
      .gateSignal f.RequestID]

/-- The reader task and the dispatcher composed over a list of incoming
frames.  The handoff on `readFrameCh` is an unbuffered rendezvous and the
reader waits on the single-slot gate before parsing the next frame
(`readFrames` 237-253), so reading frame `i+1` can only happen after the
dispatcher's `gateSignal` for frame `i`; the trace linearizes the
dispatcher's own steps between those two reader steps. -/
def connLoopTrace : List RequestFrame → List ConnEvent
  | [] => []
  | f :: rest => .frameRead f.RequestID :: (dispatchFrame f ++ connLoopTrace rest)

/-- The spec's description of a blocking frame's life, as one event block:
read, inline handler start, handler return, and only then the gate signal
that lets the reader parse the next frame.  Stated from the spec's words so
that `connLoopTrace` can be compared against it. -/
def blockingFrameTrace (f : RequestFrame) : List ConnEvent :=
  [.frameRead f.RequestID, .handlerStart .connWriter f.RequestID,
    .handlerReturn f.RequestID, .gateSignal f.RequestID]

/-! ### Panic discipline and instrumentation (serveconn file, 147-183) -/

/-- A metric observation made by `instrument`: the label values `method`
(the frame's cmd) and `error` (the recovered panic value, `none` when the
handler returned normally, in which case Go formats the `nil` interface). -/
structure Observation where
  cmd : Nat
  err : Option Nat
deriving DecidableEq

/-- `serveconn.instrument` (147-157): returns without recording when the
binding has no `LatencyMetric`; otherwise records one latency observation
labelled with the frame's cmd and the recovered error value. -/
def instrument (hasLatencyMetric : Bool) (frame : RequestFrame) (err : Option Nat) :
    List Observation :=
  if hasLatencyMetric then [⟨frame.Cmd, err⟩] else []

/-- Result of `handleRequestPanic`: the observations recorded and the frames
started on a fresh writer (the automatic reset frame, when sent). -/
structure PanicHandlerResult where
  observations : List Observation
  rstFrames : List OutFrame
deriving DecidableEq

/-- `serveconn.handleRequestPanic` (159-183): recover the panic value `err`,
call `instrument`, log when `err` is non-nil, and then — whenever the
frame's stream is not already self-closed, regardless of `err` — write an
automatic frame `(frame.RequestID, cmd 0, StreamRstFlag)` on a fresh
writer. -/
def handleRequestPanic (hasLatencyMetric : Bool) (stream : Stream)
    (frame : RequestFrame) (err : Option Nat) : PanicHandlerResult :=
  let obs := instrument hasLatencyMetric frame err
  if stream.IsSelfClosed then ⟨obs, []⟩
  else ⟨obs, [⟨frame.RequestID, 0, StreamRstFlag, []⟩]⟩

/-! ### The writer loop (serveconn file, `writeFrames` 257-297) -/

inductive WriteErr where
  /-- `ErrRstNonExistingStream`: `Rst` flag on an id with no stream. -/
  | RstNonExistingStream
  /-- `ErrWriteAfterCloseSelf`: frame enqueued on a locally-closed stream. -/
  | WriteAfterCloseSelf
  /-- A socket write error. -/
  | SocketErr
deriving DecidableEq

/-- Outcome of the writer loop's handling of one `writeFrameRequest`:
the error sent back on `res.result` (`none` is success), whether the frame's
bytes were written to the socket, whether `sc.Close()` was initiated, and
the stream table afterwards. -/
structure WriteStepResult where
  result : Option WriteErr
  wroteSocket : Bool
  closedConn : Bool
  streams : connstreams

/-- The tail of the loop body: write the buffered bytes to the socket and
report the outcome; a socket error also initiates `sc.Close()`. -/
def writeToSocket (cs : connstreams) (socketOk : Bool) : WriteStepResult :=
  if socketOk then ⟨none, true, false, cs⟩
  else ⟨some .SocketErr, true, true, cs⟩

/-- One iteration of `serveconn.writeFrames` for a submitted frame with the
given requestID and flags (`socketOk` says whether the socket write would
succeed).  `Rst` frames look the stream up (`RstNonExistingStream` when
absent) and consult `AddOutFrame` — a `false` answer suppresses the write
but reports success.  Other non-`Push` frames go through
`CreateOrGetStream` and `AddOutFrame` — a `false` answer reports
`WriteAfterCloseSelf`.  `Push` frames skip the stream logic. -/
def writeFrames (cs : connstreams) (requestID flags : Nat) (socketOk : Bool) :
    WriteStepResult :=
  if flagIsRst flags then
    match connstreams.GetStream cs requestID with
    | none => ⟨some .RstNonExistingStream, false, false, cs⟩
    | some s =>
      let r := s.AddOutFrame flags
      if r.1 then writeToSocket (connstreams.setStream cs requestID r.2) socketOk
      else ⟨none, false, false, cs⟩
  else if flagIsPush flags then
    writeToSocket cs socketOk
  else
    let g := connstreams.CreateOrGetStream cs requestID
    let r := g.1.AddOutFrame flags
    if r.1 then writeToSocket (connstreams.setStream g.2 requestID r.2) socketOk
    else ⟨some .WriteAfterCloseSelf, false, false, g.2⟩

/-! ### Server push (`server.go`, `PushFrame` 288-297) -/

/-- `Server.PushFrame`: allocate a push id by an atomic increment of the
`uint64` push counter, mask the caller's flags with `flags &= PushFlag`,
and submit the frame through a writer (`StartWrite` / `WriteBytes` /
`EndWrite`).  Returns the new counter value and the submitted frame. -/
def PushFrame (pushCounter : Nat) (cmd : Nat) (flags : Nat) (payload : List Nat) :
    Nat × OutFrame :=
  let pushID := (pushCounter + 1) % 2 ^ 64
  let flags1 := flags &&& PushFlag
  (pushID, ⟨pushID, cmd, flags1, payload⟩)

/-! ### Keepalive on accepted connections (`server.go` 143-204) -/

/-- The keepalive configuration of an accepted TCP connection. -/
structure TCPConn where
  keepAlive : Bool
  keepAlivePeriodMinutes : Nat
deriving DecidableEq

/-- A connection as returned by the operating system's accept: keepalive not
configured by this code. -/
def acceptedRawConn : TCPConn := ⟨false, 0⟩

/-- `tcpKeepAliveListener.Accept` (196-204): calls `AcceptTCP` on the
embedded listener and then sets keepalive with a 3-minute period. -/
def tcpKeepAliveListener.Accept (c : TCPConn) : TCPConn :=
  { c with keepAlive := true, keepAlivePeriodMinutes := 3 }

/-- `tcpKeepAliveListener.AcceptTCP`: the method promoted from the embedded
`*net.TCPListener`; it returns the accepted connection unmodified (it does
not run the `Accept` override above). -/
def tcpKeepAliveListener.AcceptTCP (c : TCPConn) : TCPConn := c

/-- The accept step of `Server.serve` (line 155): `rw, e := l.AcceptTCP()` —
the promoted method, not the keepalive-setting `Accept`. -/
def serveAcceptConn (c : TCPConn) : TCPConn := tcpKeepAliveListener.AcceptTCP c

/-! ### Server lifecycle: Shutdown (`server.go` 270-308) -/

inductive GoErr where
  /-- A listener's `Close` failed. -/
  | listenerCloseFailed
  /-- `net.Conn.Close` on an already-closed connection. -/
  | alreadyClosedConn
deriving DecidableEq

/-- A tracked listener, described by what its `Close()` would return. -/
structure Listener where
  closeErr : Option GoErr
deriving DecidableEq

/-- `Server.closeListenersLocked` (299-308) closes every tracked listener
and removes all of them from the set, returning the first close error
encountered (map iteration order modelled as list order). -/
def closeListenersLockedErr : List Listener → Option GoErr
  | [] => none
  | l :: rest =>
    match l.closeErr with
    | some e => some e
    | none => closeListenersLockedErr rest

/-- The server state that `Shutdown` touches. -/
structure ServerLifecycle where
  lockHeld : Bool
  listeners : List Listener
  doneClosed : Bool
  waitedTasks : Bool
deriving DecidableEq

structure ShutdownResult where
  returned : Option GoErr
  state : ServerLifecycle
deriving DecidableEq

/-- `Server.Shutdown` (270-284): take `srv.mu`, run
`closeListenersLocked`; when that returned an error, return it at once
(without `Unlock`, without closing `doneChan`, without `wg.Wait`);
otherwise unlock, close `doneChan` and wait for all spawned goroutines. -/
def Shutdown (st : ServerLifecycle) : ShutdownResult :=
  let st1 := { st with lockHeld := true }
  let lnerr := closeListenersLockedErr st1.listeners
  let st2 := { st1 with listeners := [] }
  match lnerr with
  | some e => ⟨some e, st2⟩
  | none => ⟨none, { st2 with lockHeld := false, doneClosed := true, waitedTasks := true }⟩

/-! ### Connection close (serveconn file, `Close` / `closeUntracked` 300-322)

The `untrack` that `Close` calls must report `(firstCaller, readyChannel)`;
the `Server.untrack` under `src/server.go` has neither the once-flag nor any
return value (its call site would not even type-check against it), so the
once-flag wrapper is modelled from the spec, which prescribes an atomic
once-flag plus a broadcast channel (the `sc.untrack` / `sc.untrackedCh`
fields of the serveconn struct). -/

/-- The per-connection state that closing touches.  `socketCloseCalls`
counts invocations of `rwc.Close()`; `notifyRuns` counts executions of the
`closeNotify` callback loop. -/
structure CloseState where
  untrackFlag : Bool
  untrackedChClosed : Bool
  trackedInRegistry : Bool
  socketClosed : Bool
  socketCloseCalls : Nat
  ctxCancelled : Bool
  notifyRuns : Nat
deriving DecidableEq

/-- Modelled from the spec: the once-flag `untrack` called by
`serveconn.Close`.  The first caller flips the atomic flag, removes the
connection from the server registries (the body of `Server.untrack`,
`server.go` 248-261) and closes the broadcast channel, reporting `true`;
every later caller reports `false` together with the channel to wait on. -/
def untrackOnce (st : CloseState) : Bool × CloseState :=
  if st.untrackFlag then (false, st)
  else
    (true, { st with
      untrackFlag := true
      trackedInRegistry := false
      untrackedChClosed := true })

/-- `serveconn.closeUntracked` (310-322): call `rwc.Close()`; when that
errors (the socket was already closed) return the error at once; otherwise
cancel the connection context and run every registered `closeNotify`
callback. -/
def closeUntracked (st : CloseState) : Option GoErr × CloseState :=
  if st.socketClosed then
    (some .alreadyClosedConn, { st with socketCloseCalls := st.socketCloseCalls + 1 })
  else
    (none, { st with
      socketClosed := true
      socketCloseCalls := st.socketCloseCalls + 1
      ctxCancelled := true
      notifyRuns := st.notifyRuns + 1 })

/-- `serveconn.Close` (300-308): `ok, ch := sc.server.untrack(sc)`; a
non-first caller waits on `ch` (in this sequential linearization the
channel is already closed, so the wait returns at once); then every caller
— first or not — runs `closeUntracked`. -/
def serveconnClose (st : CloseState) : Option GoErr × CloseState :=
  let r := untrackOnce st
  closeUntracked r.2

/-! ### Identity registry sizing (`server.go` 100-107, 231-261) -/

/-- A listening binding; only its presence matters for the registry model. -/
structure ServerBinding where
  addr : Nat
deriving DecidableEq

/-- The registry slices of a `Server`: the per-binding identity maps
(`id2Conn`, connections as opaque tokens) and the per-binding active
connection sets (`activeConn`). -/
structure ServerRegistry where
  id2Conn : List (List (Nat × Nat))
  activeConn : List (List Nat)
deriving DecidableEq

/-- `NewServer` (100-107): `id2Conn` is a literal of exactly two empty
maps — independent of `len(bindings)` — while `activeConn` is made with
length `len(bindings)`. -/
def NewServer (bindings : List ServerBinding) : ServerRegistry :=
  ⟨[[], []], List.replicate bindings.length []⟩

/-- Association-list read of a Go map. -/
def alistFind (m : List (Nat × Nat)) (k : Nat) : Option Nat :=
  match m.find? (fun kv => kv.1 == k) with
  | some kv => some kv.2
  | none => none

/-- Association-list delete of a Go map key. -/
def alistErase (m : List (Nat × Nat)) (k : Nat) : List (Nat × Nat) :=
  m.filter (fun kv => kv.1 != k)

/-- `Server.bindID` (231-246) for the connection token `sc` at binding
index `idx`: read `srv.id2Conn[idx]` — a Go slice index, which panics when
`idx` is out of range.  When some other connection already holds the id it
is force-closed and awaited before the new binding is installed (the closed
token is returned); re-binding the same connection is a no-op. -/
def bindID (srv : ServerRegistry) (idx : Nat) (sc : Nat) (id : Nat) :
    GoResult (ServerRegistry × Option Nat) :=
  match srv.id2Conn[idx]? with
  | none => .panicked
  | some m =>
    match alistFind m id with
    | some v =>
      if v == sc then .ok (srv, none)
      else
        .ok (⟨srv.id2Conn.set idx ((id, sc) :: alistErase m id), srv.activeConn⟩, some v)
    | none => .ok (⟨srv.id2Conn.set idx ((id, sc) :: m), srv.activeConn⟩, none)

/-- `serveconn.SetID` (186-192): panics on an empty id (modelled as
`none`), otherwise stores the id on the connection and calls `bindID`. -/
def SetID (srv : ServerRegistry) (idx : Nat) (sc : Nat) (id : Option Nat) :
    GoResult (ServerRegistry × Option Nat) :=
  match id with
  | none => .panicked
  | some i => bindID srv idx sc i

/-- `Server.untrack` (248-261) for a connection token `sc` with identity
`id` (`none` models the empty string) at binding index `idx`: when the
connection has an id, delete it from `srv.id2Conn[idx]` — a slice index
that panics when `idx` is out of range — and in any case delete the
connection from `srv.activeConn[idx]`. -/
def untrack (srv : ServerRegistry) (idx : Nat) (sc : Nat) (id : Option Nat) :
    GoResult ServerRegistry :=
  match id with
  | some i =>
    match srv.id2Conn[idx]? with
    | none => .panicked
    | some m =>
      match srv.activeConn[idx]? with
      | none => .panicked
      | some a =>
        .ok ⟨srv.id2Conn.set idx (alistErase m i),
             srv.activeConn.set idx (a.filter (fun t => t != sc))⟩
  | none =>
    match srv.activeConn[idx]? with
    | none => .panicked
    | some a => .ok ⟨srv.id2Conn, srv.activeConn.set idx (a.filter (fun t => t != sc))⟩

/-! ## Theorems -/

/-- Claim C10: `ServeMux.ServeQRPC` takes the read lock and releases it only
on the path where the cmd has a registered handler; on the unknown-cmd path
it returns with the read-hold count still incremented, so the lock is not
released on every return path.  (The second conjunct records which handler,
if any, the dispatch goes on to invoke.) -/
theorem serveQRPC_lock_released_only_on_known_cmd (mux : ServeMux)
    (lock : RWLockState) (r : RequestFrame) :
    (mux.ServeQRPC lock r).lock.readers =
      (if (mux.lookup r.Cmd).isSome then lock.readers else lock.readers + 1) ∧
    (mux.ServeQRPC lock r).invokedHandler = mux.lookup r.Cmd := by
  cases h : mux.lookup r.Cmd <;>
    simp [ServeMux.ServeQRPC, h, RWLockState.RLock, RWLockState.RUnlock]

/-- Claim C8: dispatching a request frame whose cmd has no registered
handler invokes no handler and writes no frame; and `ServeMux.Handle`
panics at registration time on a `nil` handler and on a duplicate
registration for an already-registered cmd. -/
theorem serveMux_unknown_cmd_dropped_and_handle_panics (mux : ServeMux)
    (lock : RWLockState) (r : RequestFrame) (cmd h : Nat)
    (hnone : mux.lookup r.Cmd = none)
    (hdup : (mux.lookup cmd).isSome = true) :
    (mux.ServeQRPC lock r).invokedHandler = none ∧
    (mux.ServeQRPC lock r).framesWritten = [] ∧
    (mux.Handle cmd none).isPanicked = true ∧
    (mux.Handle cmd (some h)).isPanicked = true := by
  rcases Option.isSome_iff_exists.mp hdup with ⟨v, hv⟩
  simp [ServeMux.ServeQRPC, hnone, ServeMux.Handle, hv, GoResult.isPanicked]

/-- Witness for C8 at a concrete mux with cmd 5 registered: dispatching
cmd 9 invokes nothing and writes nothing, registering a `nil` handler
panics, and re-registering cmd 5 panics. -/
theorem serveMux_unknown_cmd_dropped_and_handle_panics_witness :
    ((⟨[(5, 1)]⟩ : ServeMux).ServeQRPC ⟨0⟩ ⟨1, 9, 0, []⟩).invokedHandler = none ∧
    ((⟨[(5, 1)]⟩ : ServeMux).ServeQRPC ⟨0⟩ ⟨1, 9, 0, []⟩).framesWritten = [] ∧
    ((⟨[(5, 1)]⟩ : ServeMux).Handle 5 none).isPanicked = true ∧
    ((⟨[(5, 1)]⟩ : ServeMux).Handle 5 (some 2)).isPanicked = true :=
  serveMux_unknown_cmd_dropped_and_handle_panics ⟨[(5, 1)]⟩ ⟨0⟩ ⟨1, 9, 0, []⟩ 5 2
    (by decide) (by decide)

/-- Claim C6 (code bug): the accept step of `Server.serve` calls
`AcceptTCP` — the method promoted from the embedded `*net.TCPListener` —
so the keepalive-setting `tcpKeepAliveListener.Accept` override never runs
on that path, and an accepted connection keeps keepalive unconfigured; the
override itself, had it been called, would have enabled keepalive with a
3-minute period. -/
theorem serve_accepted_conn_has_no_keepalive :
    (serveAcceptConn acceptedRawConn).keepAlive = false ∧
    (serveAcceptConn acceptedRawConn).keepAlivePeriodMinutes = 0 ∧
    (tcpKeepAliveListener.Accept acceptedRawConn).keepAlive = true ∧
    (tcpKeepAliveListener.Accept acceptedRawConn).keepAlivePeriodMinutes = 3 := by
  decide

/-- Claim C3 (code bug): `Server.PushFrame` computes `flags &= PushFlag`,
so a caller passing flags without the push bit (here `flags = 0`) submits a
frame whose flags are `0`: `PushFlag` is not set, and the frame does not
bypass stream bookkeeping — the writer loop creates a stream for the push
id (last conjunct).  The cmd, payload and freshly incremented push id are
carried as claimed. -/
theorem pushFrame_flags_zero_loses_push_flag :
    (PushFrame 0 7 0 [1, 2]).2.flags = 0 ∧
    flagIsPush (PushFrame 0 7 0 [1, 2]).2.flags = false ∧
    (PushFrame 0 7 0 [1, 2]).2.cmd = 7 ∧
    (PushFrame 0 7 0 [1, 2]).2.payload = [1, 2] ∧
    (PushFrame 0 7 0 [1, 2]).2.requestID = 1 ∧
    (writeFrames [] (PushFrame 0 7 0 [1, 2]).2.requestID
        (PushFrame 0 7 0 [1, 2]).2.flags true).streams ≠ [] := by
  decide

/-- Claim C2, counterexample: with no panic (`err = none`), a stream that is
not self-closed, and a binding without a latency metric, the dispatcher still
emits the automatic `StreamRstFlag` frame on the originating request id — the
claim says the frame is emitted only if the handler failed — and records no
latency observation — the claim says one is recorded for the invocation. -/
theorem handleRequestPanic_rst_without_failure :
    (handleRequestPanic false ⟨false, false, false⟩ ⟨42, 7, 1, []⟩ none).rstFrames =
      [⟨42, 0, StreamRstFlag, []⟩] ∧
    (handleRequestPanic false ⟨false, false, false⟩ ⟨42, 7, 1, []⟩ none).observations = [] := by
  decide

/-- Claim C2, amended: after a handler invocation on a request frame, the
automatic `StreamRstFlag` frame on the originating requestID is emitted iff
the stream is not already self-closed — whether or not the handler panicked —
and a latency observation tagged with the cmd and the recovered error is
recorded iff the binding has a latency metric configured. -/
theorem handleRequestPanic_rst_iff_not_self_closed (hasLatencyMetric : Bool)
    (stream : Stream) (frame : RequestFrame) (err : Option Nat) :
    (handleRequestPanic hasLatencyMetric stream frame err).rstFrames =
      (if stream.IsSelfClosed then [] else [⟨frame.RequestID, 0, StreamRstFlag, []⟩]) ∧
    (handleRequestPanic hasLatencyMetric stream frame err).observations =
      (if hasLatencyMetric then [⟨frame.Cmd, err⟩] else []) := by
  cases h : stream.IsSelfClosed <;>
    cases hasLatencyMetric <;> simp [handleRequestPanic, instrument, h]

/-- Claim C5, counterexample: from an unlocked server with one tracked
listener whose `Close` fails, `Shutdown` returns that error while still
holding the server lock, without closing `doneChan` and without waiting for
the spawned goroutines — the claim says all of these happen on every path. -/
theorem shutdown_error_path_keeps_lock :
    (Shutdown ⟨false, [⟨some .listenerCloseFailed⟩], false, false⟩).returned =
      some .listenerCloseFailed ∧
    (Shutdown ⟨false, [⟨some .listenerCloseFailed⟩], false, false⟩).state.lockHeld = true ∧
    (Shutdown ⟨false, [⟨some .listenerCloseFailed⟩], false, false⟩).state.doneClosed = false ∧
    (Shutdown ⟨false, [⟨some .listenerCloseFailed⟩], false, false⟩).state.waitedTasks = false := by
  decide

/-- Claim C5, amended: `Shutdown` always closes and removes every tracked
listener under the server lock and returns the first listener-close error;
when no close error occurred it releases the lock, closes `doneChan`, and
waits for all spawned goroutines, but when a listener's `Close` returned an
error it returns that error immediately, still holding the lock, without
closing `doneChan` and without waiting. -/
theorem shutdown_paths (st : ServerLifecycle) :
    (Shutdown st).returned = closeListenersLockedErr st.listeners ∧
    (Shutdown st).state.listeners = [] ∧
    (Shutdown st).state.lockHeld = (closeListenersLockedErr st.listeners).isSome ∧
    (Shutdown st).state.doneClosed =
      (if (closeListenersLockedErr st.listeners).isSome then st.doneClosed else true) ∧
    (Shutdown st).state.waitedTasks =
      (if (closeListenersLockedErr st.listeners).isSome then st.waitedTasks else true) := by
  cases h : closeListenersLockedErr st.listeners <;> simp [Shutdown, h]

/-- Claim C1, counterexample: starting from a live tracked connection, a
second (later) `Close` call does not return the first caller's outcome — the
first returns success, the second returns the socket's already-closed error —
and it re-runs part of the teardown: `rwc.Close()` has been invoked twice
after the two calls.  The claim says all callers return the same outcome and
the teardown side effects run exactly once. -/
theorem close_twice_different_outcomes :
    (serveconnClose ⟨false, false, true, false, 0, false, 0⟩).1 = none ∧
    (serveconnClose ((serveconnClose ⟨false, false, true, false, 0, false, 0⟩).2)).1 =
      some .alreadyClosedConn ∧
    (serveconnClose ((serveconnClose ⟨false, false, true, false, 0, false, 0⟩).2)).2.socketCloseCalls = 2 := by
  decide

/-- Claim C1, amended: `Close` is exactly-once only for part of the
teardown.  For every connection state: the registry untrack is performed by
the first caller only (the once-flag ends up set and a previously untracked
state is left untouched by later calls); every caller — first or not —
re-invokes `closeUntracked`, so `rwc.Close()` is attempted once per call;
the context cancellation and close-notify callbacks run only on the call
that finds the socket still open, because a later call's failing socket
close returns early; and a later caller therefore returns the
already-closed error rather than the first caller's outcome. -/
theorem serveconnClose_per_call_effects (st : CloseState) :
    (serveconnClose st).1 =
      (if st.socketClosed then some GoErr.alreadyClosedConn else none) ∧
    (serveconnClose st).2.socketCloseCalls = st.socketCloseCalls + 1 ∧
    (serveconnClose st).2.notifyRuns =
      (if st.socketClosed then st.notifyRuns else st.notifyRuns + 1) ∧
    (serveconnClose st).2.ctxCancelled =
      (if st.socketClosed then st.ctxCancelled else true) ∧
    (serveconnClose st).2.untrackFlag = true ∧
    (serveconnClose st).2.trackedInRegistry = (st.untrackFlag && st.trackedInRegistry) := by
  rcases st with ⟨uf, uc, tr, sclosed, scc, cc, nr⟩
  cases uf <;> cases sclosed <;>
    simp [serveconnClose, untrackOnce, closeUntracked]

/-- Claim C4: in the dispatch loop, a frame with `NonBlockFlag` clear runs
the handler inline on the connection writer and signals the reader gate only
after the handler returns; a frame with `NonBlockFlag` set signals the gate
first and then spawns a handler task with a fresh writer; consequently, over
any run of frames with `NonBlockFlag` clear, the reader/dispatcher trace is
exactly the per-frame blocks read–start–return–gate in arrival order, so
blocking handlers execute in frame-arrival order and the next frame is read
only after the previous handler returned. -/
theorem serve_dispatch_ordering :
    (∀ f : RequestFrame, flagIsNonBlock f.Flags = false →
      dispatchFrame f =
        [.handlerStart .connWriter f.RequestID, .handlerReturn f.RequestID,
          .gateSignal f.RequestID]) ∧
    (∀ f : RequestFrame, flagIsNonBlock f.Flags = true →
      dispatchFrame f = [.gateSignal f.RequestID, .taskSpawn .freshWriter f.RequestID]) ∧
    (∀ frames : List RequestFrame, (∀ f ∈ frames, flagIsNonBlock f.Flags = false) →
      connLoopTrace frames = frames.flatMap blockingFrameTrace) := by
  refine ⟨fun f hf => by simp [dispatchFrame, hf], fun f hf => by simp [dispatchFrame, hf], ?_⟩
  intro frames
  induction frames with
  | nil => intro _; rfl
  | cons f rest ih =>
    intro hall
    have hf : flagIsNonBlock f.Flags = false := hall f (by simp)
    have hrest : ∀ g ∈ rest, flagIsNonBlock g.Flags = false :=
      fun g hg => hall g (by simp [hg])
    simp [connLoopTrace, dispatchFrame, hf, blockingFrameTrace, ih hrest]

/-- Witness for C4: a blocking frame (flags 0), a non-blocking frame
(flags 8), and a two-frame blocking run, each at concrete inputs. -/
theorem serve_dispatch_ordering_witness :
    dispatchFrame ⟨1, 7, 0, []⟩ =
      [.handlerStart .connWriter 1, .handlerReturn 1, .gateSignal 1] ∧
    dispatchFrame ⟨2, 7, 8, []⟩ = [.gateSignal 2, .taskSpawn .freshWriter 2] ∧
    connLoopTrace [⟨1, 7, 0, []⟩, ⟨3, 9, 2, []⟩] =
      ([⟨1, 7, 0, []⟩, ⟨3, 9, 2, []⟩] : List RequestFrame).flatMap blockingFrameTrace :=
  ⟨serve_dispatch_ordering.1 ⟨1, 7, 0, []⟩ (by decide),
   serve_dispatch_ordering.2.1 ⟨2, 7, 8, []⟩ (by decide),
   serve_dispatch_ordering.2.2 [⟨1, 7, 0, []⟩, ⟨3, 9, 2, []⟩] (by decide)⟩

/-- Claim C7: the writer loop's treatment of a submitted frame — a `Rst`
frame for an id with no stream surfaces `RstNonExistingStream` without
touching the socket; a `Rst` frame rejected by `AddOutFrame` is suppressed
but reported as success, leaving the table unchanged; a non-`Push` frame
rejected by `AddOutFrame` surfaces `WriteAfterCloseSelf` without a socket
write; and a `Push` frame (the branch reached when `Rst` is clear, per the
loop's branch order) goes straight to the socket with the stream table
untouched. -/
theorem writeFrames_stream_discipline (cs : connstreams) (requestID flags : Nat)
    (socketOk : Bool) :
    (flagIsRst flags = true → connstreams.GetStream cs requestID = none →
      writeFrames cs requestID flags socketOk =
        ⟨some .RstNonExistingStream, false, false, cs⟩) ∧
    (∀ s : Stream, flagIsRst flags = true →
      connstreams.GetStream cs requestID = some s → (s.AddOutFrame flags).1 = false →
      writeFrames cs requestID flags socketOk = ⟨none, false, false, cs⟩) ∧
    (flagIsRst flags = false → flagIsPush flags = false →
      ((connstreams.CreateOrGetStream cs requestID).1.AddOutFrame flags).1 = false →
      writeFrames cs requestID flags socketOk =
        ⟨some .WriteAfterCloseSelf, false, false,
          (connstreams.CreateOrGetStream cs requestID).2⟩) ∧
    (flagIsRst flags = false → flagIsPush flags = true →
      writeFrames cs requestID flags socketOk = writeToSocket cs socketOk ∧
      (writeFrames cs requestID flags socketOk).streams = cs ∧
      (writeFrames cs requestID flags socketOk).wroteSocket = true) := by
  refine ⟨?_, ?_, ?_, ?_⟩
  · intro hr hn; simp [writeFrames, hr, hn]
  · intro s hr hs ha; simp [writeFrames, hr, hs, ha]
  · intro hr hp ha; simp [writeFrames, hr, hp, ha]
  · intro hr hp
    have h : writeFrames cs requestID flags socketOk = writeToSocket cs socketOk := by
      simp [writeFrames, hr, hp]
    refine ⟨h, ?_, ?_⟩ <;> rw [h] <;> cases socketOk <;> simp [writeToSocket]

/-- Witness for C7: concrete stream tables exercising all four branches —
a `Rst` for an absent id, a `Rst` for a stream that already sent `Rst`, a
plain frame on an `outClosed` stream, and a push frame. -/
theorem writeFrames_stream_discipline_witness :
    writeFrames [] 5 4 true = ⟨some .RstNonExistingStream, false, false, []⟩ ∧
    writeFrames [(5, ⟨false, false, true⟩)] 5 4 true =
      ⟨none, false, false, [(5, ⟨false, false, true⟩)]⟩ ∧
    writeFrames [(5, ⟨false, true, false⟩)] 5 0 true =
      ⟨some .WriteAfterCloseSelf, false, false, [(5, ⟨false, true, false⟩)]⟩ ∧
    writeFrames [] 5 16 true = writeToSocket [] true :=
  ⟨(writeFrames_stream_discipline [] 5 4 true).1 (by decide) (by decide),
   (writeFrames_stream_discipline [(5, ⟨false, false, true⟩)] 5 4 true).2.1
     ⟨false, false, true⟩ (by decide) (by decide) (by decide),
   (writeFrames_stream_discipline [(5, ⟨false, true, false⟩)] 5 0 true).2.2.1
     (by decide) (by decide) (by decide),
   ((writeFrames_stream_discipline [] 5 16 true).2.2.2 (by decide) (by decide)).1⟩

/-- Claim C9: `NewServer` always builds `id2Conn` with exactly two
per-binding maps regardless of the number of bindings, while `activeConn`
is sized to the number of bindings; hence on a server with three or more
bindings, `SetID` (through `bindID`) and `untrack` for a connection at a
valid binding index of 2 or more index past the end of `id2Conn` and
panic. -/
theorem newServer_id2Conn_fixed_size_panics (bindings : List ServerBinding)
    (idx sc id : Nat) (hb : 3 ≤ bindings.length) (hidx : 2 ≤ idx)
    (hlt : idx < bindings.length) :
    (NewServer bindings).id2Conn.length = 2 ∧
    (NewServer bindings).activeConn.length = bindings.length ∧
    (bindID (NewServer bindings) idx sc id).isPanicked = true ∧
    (SetID (NewServer bindings) idx sc (some id)).isPanicked = true ∧
    (untrack (NewServer bindings) idx sc (some id)).isPanicked = true := by
  have hget : (NewServer bindings).id2Conn[idx]? = none := by
    rw [List.getElem?_eq_none_iff]
    simpa [NewServer] using hidx
  refine ⟨by simp [NewServer], by simp [NewServer], ?_, ?_, ?_⟩ <;>
    simp [bindID, SetID, untrack, hget, GoResult.isPanicked]

/-- Witness for C9: a server with three bindings and a connection at
binding index 2 with a bound id. -/
theorem newServer_id2Conn_fixed_size_panics_witness :
    (NewServer [⟨0⟩, ⟨1⟩, ⟨2⟩]).id2Conn.length = 2 ∧
    (NewServer [⟨0⟩, ⟨1⟩, ⟨2⟩]).activeConn.length = 3 ∧
    (bindID (NewServer [⟨0⟩, ⟨1⟩, ⟨2⟩]) 2 7 1).isPanicked = true ∧
    (SetID (NewServer [⟨0⟩, ⟨1⟩, ⟨2⟩]) 2 7 (some 1)).isPanicked = true ∧
    (untrack (NewServer [⟨0⟩, ⟨1⟩, ⟨2⟩]) 2 7 (some 1)).isPanicked = true :=
  newServer_id2Conn_fixed_size_panics [⟨0⟩, ⟨1⟩, ⟨2⟩] 2 7 1 (by decide) (by decide)
    (by decide)

end Qrpc
